import Mathlib

/-!
Verification of the home-soc repository: a shallow embedding of the
network-monitor (`src/network-monitor.js`) and threat-aggregator
(`src/threat-aggregator.js`) modules, with theorems settling the
behavioural claims about anomaly detection, state persistence, alert
dispatch and feed aggregation.

JavaScript numbers are modelled with exact rationals extended by the
IEEE special values `Infinity` and `NaN` where division can produce
them; machine-level double rounding is not modelled.  Filesystem and
network effects are modelled by passing the outcome of the external
operation (file contents, HTTP response, write result) as an explicit
argument.
-/

namespace HomeSoc

/-! ## JavaScript primitives used by the source -/

/-- A JavaScript number restricted to the values `Math.round` can
produce in this program: an integer, `Infinity`, or `NaN`. -/
inductive JSNum where
  | int (n : Int)
  | inf
  | nan
deriving DecidableEq, Repr

/-- A finite-or-special rational, the value of a JS arithmetic
expression before rounding.  Only non-negative dividends occur in the
source, so negative infinity is not needed. -/
inductive QX where
  | q (x : ℚ)
  | inf
  | nan
deriving DecidableEq

/-- JS division `c / p` of two non-negative counts: division by zero
yields `Infinity` (or `NaN` for `0 / 0`) per IEEE-754. -/
def qxDivNat (c p : Nat) : QX :=
  if p = 0 then (if c = 0 then QX.nan else QX.inf) else QX.q ((c : ℚ) / (p : ℚ))

/-- Subtraction of a finite constant, propagating `Infinity`/`NaN`. -/
def qxSub (a : QX) (r : ℚ) : QX :=
  match a with
  | QX.q x => QX.q (x - r)
  | QX.inf => QX.inf
  | QX.nan => QX.nan

/-- Multiplication by a positive finite constant, propagating
`Infinity`/`NaN`. -/
def qxMul (a : QX) (r : ℚ) : QX :=
  match a with
  | QX.q x => QX.q (x * r)
  | QX.inf => QX.inf
  | QX.nan => QX.nan

/-- `Math.round`: for a finite argument JS rounds half toward positive
infinity, i.e. `round x = ⌊x + 1/2⌋`; `Math.round` of `Infinity`/`NaN`
returns the argument unchanged. -/
def jsMathRound (a : QX) : JSNum :=
  match a with
  | QX.q x => JSNum.int (Int.floor (x + 1/2))
  | QX.inf => JSNum.inf
  | QX.nan => JSNum.nan

/-- Template-string rendering of a JS number (`Infinity` and `NaN`
print as their names). -/
def jsNumToString (a : JSNum) : String :=
  match a with
  | JSNum.int n => toString n
  | JSNum.inf => "Infinity"
  | JSNum.nan => "NaN"

/-- Whitespace as matched by the JS `\s`-style helpers used here. -/
def jsIsWs (c : Char) : Bool :=
  c == ' ' || c == '\t' || c == '\n' || c == '\r'

/-- `parseInt(s)` restricted to decimal input, as applied to port
segments: skip leading whitespace, read an optional sign and then a
run of decimal digits; if no digit is found the result is `NaN`
(modelled as `none`).  The hexadecimal `0x` prefix form is not
modelled (no caller can produce it). -/
def jsParseInt (s : String) : Option Int :=
  let chars := s.data.dropWhile jsIsWs
  let signAndRest : Bool × List Char :=
    match chars with
    | '-' :: r => (true, r)
    | '+' :: r => (false, r)
    | r => (false, r)
  let digits := signAndRest.2.takeWhile Char.isDigit
  if digits.isEmpty then none
  else
    let n : Nat := digits.foldl (fun acc c => acc * 10 + (c.toNat - 48)) 0
    some (if signAndRest.1 then -(n : Int) else (n : Int))

/-- Split a character list at every character satisfying `p`,
keeping empty tokens, as JS `split` with a single-character
separator does. -/
def splitByPred (p : Char → Bool) : List Char → List (List Char)
  | [] => [[]]
  | c :: rest =>
    let r := splitByPred p rest
    if p c then [] :: r
    else
      match r with
      | [] => [[c]]
      | t :: ts => (c :: t) :: ts

/-- JS `s.split(sep)` for a one-character separator. -/
def splitOnChar (sep : Char) (s : String) : List String :=
  (splitByPred (fun c => c == sep) s.data).map List.asString

/-- `s.split(':').pop()`: the final colon-delimited segment (JS
`split` never returns an empty array, so `pop` is total). -/
def lastSegment (s : String) (sep : Char) : String :=
  (splitOnChar sep s).getLastD ("")

/-- JS `s.split(/\s+/)`: split on maximal whitespace runs; a leading
or trailing run contributes an empty token, interior runs do not. -/
def jsSplitWs (s : String) : List String :=
  let tokens := (splitByPred jsIsWs s.data).map List.asString
  match tokens with
  | [] => []
  | [t] => [t]
  | first :: rest =>
      first :: ((rest.dropLast.filter (fun t => t ≠ "")) ++ [rest.getLastD ("")])

/-- Is `pat` a prefix of `cs`? -/
def prefixMatches : List Char → List Char → Bool
  | [], _ => true
  | _ :: _, [] => false
  | p :: ps, c :: cs => p == c && prefixMatches ps cs

/-- Does `pat` occur as a contiguous substring of `cs`? -/
def containsSubstrList (pat : List Char) : List Char → Bool
  | [] => pat.isEmpty
  | c :: cs => prefixMatches pat (c :: cs) || containsSubstrList pat cs

/-- Substring test (used to model `grep LISTEN`). -/
def containsSubstr (s pat : String) : Bool :=
  containsSubstrList pat.data s.data

/-- JS `s.trim()`. -/
def jsTrim (s : String) : String :=
  (((s.data.dropWhile jsIsWs).reverse.dropWhile jsIsWs).reverse).asString

/-- JS `a || d` on an optional string: `undefined` and the empty
string are falsy. -/
def jsOrString (a : Option String) (d : String) : String :=
  match a with
  | some s => if s == "" then d else s
  | none => d

/-! ## Network monitor: data model (`src/network-monitor.js`) -/

/-- One row of `ss -tunapl` output as parsed by
`getNetworkConnections`: `parts[0..5]` plus `parts[6] || 'unknown'`.
`peer` is `parts[5]`, which a short row leaves `undefined`. -/
structure Connection where
  protocol : String
  state : String
  recv_q : String
  send_q : String
  localAddr : String
  peer : Option String
  process : String
deriving DecidableEq, Repr

/-- One row of `ss -tuln | grep LISTEN` output as parsed by
`getListeningPorts`.  `port` is kept as the raw string taken from the
address field. -/
structure ListeningPort where
  protocol : String
  port : String
  address : String
deriving DecidableEq, Repr

/-- The `stats` block of a snapshot. -/
structure Stats where
  totalConnections : Nat
  establishedConnections : Nat
  listeningPorts : Nat
deriving DecidableEq, Repr

/-- The persisted state record built once per monitoring cycle. -/
structure Snapshot where
  timestamp : String
  connections : List Connection
  ports : List ListeningPort
  stats : Stats
deriving DecidableEq, Repr

/-- The heterogeneous `details` payload of an anomaly event. -/
inductive AnomalyDetails where
  | newPorts (ports : List ListeningPort)
  | spike (previous current : Nat) (increase : String)
  | suspicious (conns : List Connection)
deriving DecidableEq, Repr

/-- An anomaly event as pushed by `detectAnomalies`. -/
structure AnomalyEvent where
  type : String
  severity : String
  details : AnomalyDetails
  timestamp : String
deriving DecidableEq, Repr

/-! ## Network monitor: anomaly detection -/

/-- The fixed known-bad peer-port list of `detectAnomalies`. -/
def suspiciousPortsList : List Int := [4444, 5555, 6666, 8888, 31337, 12345]

/-- `conn.peer ? parseInt(conn.peer.split(':').pop()) : 0`: a missing
or empty (falsy) peer yields `0`; otherwise `parseInt` of the final
colon-delimited segment, `none` standing for `NaN`. -/
def jsPeerPort (conn : Connection) : Option Int :=
  match conn.peer with
  | none => some 0
  | some s => if s == "" then some 0 else jsParseInt (lastSegment s (':'))

/-- `suspiciousPorts.includes(peerPort)`: `NaN` matches nothing
because the list holds no `NaN`. -/
def isSuspiciousConn (conn : Connection) : Bool :=
  match jsPeerPort conn with
  | some n => suspiciousPortsList.contains n
  | none => false

/-- The `increase` string of a `connection_spike` event:
`Math.round((connCount / prevConnCount - 1) * 100)` rendered into the
template `` `${...}%` ``. -/
def spikeIncrease (connCount prevConnCount : Nat) : String :=
  jsNumToString (jsMathRound (qxMul (qxSub (qxDivNat connCount prevConnCount) 1) 100)) ++ ("%")

/-- `detectAnomalies(currentState, previousState)`.  The three rules
run independently and push in source order: new listening ports,
connection spike, suspicious peer ports.  Every event is stamped with
`new Date().toISOString()`; the wall clock is passed as `now`. -/
def detectAnomalies (currentState : Snapshot) (previousState : Option Snapshot)
    (now : String) : List AnomalyEvent :=
  match previousState with
  | none => []
  | some prev =>
    let prevPorts := prev.ports.map (fun p => p.port)
    let newPorts := currentState.ports.filter (fun p => !(prevPorts.contains p.port))
    let portEvents : List AnomalyEvent :=
      if newPorts.length > 0 then
        [{ type := "new_listening_port", severity := "medium",
           details := AnomalyDetails.newPorts newPorts, timestamp := now }]
      else []
    let connCount := currentState.connections.length
    let prevConnCount := prev.connections.length
    let threshold := prevConnCount * 2
    let spikeEvents : List AnomalyEvent :=
      if connCount > threshold ∧ connCount > 50 then
        [{ type := "connection_spike", severity := "high",
           details := AnomalyDetails.spike prevConnCount connCount
             (spikeIncrease connCount prevConnCount),
           timestamp := now }]
      else []
    let suspiciousConns := currentState.connections.filter isSuspiciousConn
    let suspEvents : List AnomalyEvent :=
      if suspiciousConns.length > 0 then
        [{ type := "suspicious_port", severity := "critical",
           details := AnomalyDetails.suspicious suspiciousConns, timestamp := now }]
      else []
    portEvents ++ spikeEvents ++ suspEvents

/-! ## Network monitor: listening-port collection -/

/-- `getListeningPorts` runs `exec('ss -tuln | grep LISTEN')`.  The
pipeline's exit status is `grep`'s, and `grep` exits with status 1
when it selects no line, which `child_process.exec` reports as an
error, rejecting the promise.  Otherwise the callback parses the
matched lines: non-blank lines are split on whitespace, the local
address is column 4 (`parts[4] || ''`) and the port is its final
colon-delimited segment. -/
def getListeningPorts (ssOutput : String) : Except String (List ListeningPort) :=
  let matched := (splitOnChar ('\n') ssOutput).filter (fun l => containsSubstr l ("LISTEN"))
  if matched.isEmpty then
    Except.error ("Command failed: ss -tuln | grep LISTEN")
  else
    let lines := matched ++ [""]
    let ports := (lines.filter (fun l => jsTrim l ≠ "")).map (fun line =>
      let parts := jsSplitWs line
      let localAddr := jsOrString (parts.get? 4) ""
      { protocol := (parts.get? 0).getD (""),
        port := lastSegment localAddr (':'),
        address := localAddr : ListeningPort })
    Except.ok ports

/-! ## Network monitor: state store -/

/-- What reading the state file can yield: the file is absent,
present but not valid JSON, or parses to a snapshot. -/
inductive ReadResult where
  | missing
  | unparseable (raw : String)
  | parsed (s : Snapshot)

/-- `loadState`: returns the parsed snapshot when the file exists and
parses; the `try`/`catch` turns a `JSON.parse` failure into a logged
message and the fall-through `return null`, and a missing file also
falls through to `null`. -/
def loadState (r : ReadResult) : Option Snapshot :=
  match r with
  | ReadResult.missing => none
  | ReadResult.unparseable _ => none
  | ReadResult.parsed s => some s

/-- Outcome of the underlying `fs` write in `saveState`. -/
inductive WriteOutcome where
  | ok
  | failed (msg : String)
deriving DecidableEq

/-- Observable result of a persistence or dispatch call: whether an
exception escaped to the caller, and the console lines produced. -/
structure EffectResult where
  raised : Option String
  logged : List String
deriving DecidableEq, Repr

/-- `saveState(state)`: the whole body sits in `try`/`catch`, so a
write failure is logged via `console.error` and never rethrown. -/
def saveState (w : WriteOutcome) : EffectResult :=
  match w with
  | WriteOutcome.ok => { raised := none, logged := [] }
  | WriteOutcome.failed msg => { raised := none, logged := ["Error saving state: " ++ msg] }

/-! ## Network monitor: alert dispatch -/

/-- Outcome of the WHATWG `new URL(webhook)` constructor call: it
either returns a parsed URL record (hostname, pathname and search
used for the request options) or throws
`TypeError [ERR_INVALID_URL]`.  Which strings parse is decided by the
host platform's full WHATWG parser (scheme grammar, host/IDNA and
port validation, ...), external to this program, so — like the
filesystem and HTTP outcomes — the constructor's result is passed in
as an explicit argument; `sendAlert` itself only determines what each
outcome does. -/
inductive URLOutcome where
  | parsed (hostname pathSearch : String)
  | throws (msg : String)
deriving DecidableEq

/-- Async outcome of the webhook HTTPS request. -/
inductive DeliveryOutcome where
  | status (code : Nat)
  | netError (msg : String)
deriving DecidableEq

/-- `sendAlert(alert)`: with no webhook configured (the `||` in the
config normalises an unset or empty variable to `null`) the alert is
written to the console and the function returns without touching the
URL.  With a webhook, `new URL(CONFIG.alertWebhook)` runs with no
surrounding `try`/`catch`, so a constructor throw escapes to the
caller; when it parses, the payload is posted and both a non-204
status and a request error are only logged by the response/error
callbacks. -/
def sendAlert (webhook : Option String) (urlOutcome : URLOutcome)
    (alert : AnomalyEvent) (delivery : DeliveryOutcome) : EffectResult :=
  match webhook with
  | none => { raised := none, logged := ["Alert (no webhook configured): " ++ alert.type] }
  | some _ =>
    match urlOutcome with
    | URLOutcome.throws msg => { raised := some msg, logged := [] }
    | URLOutcome.parsed _ _ =>
      match delivery with
      | DeliveryOutcome.status code =>
          if code == 204 then { raised := none, logged := [] }
          else { raised := none, logged := ["Failed to send alert: " ++ toString code] }
      | DeliveryOutcome.netError msg =>
          { raised := none, logged := ["Error sending alert: " ++ msg] }

/-! ## Threat aggregator: data model (`src/threat-aggregator.js`) -/

/-- One element of the Ransomware.live `recentvictims` JSON array;
every field a JS object may leave `undefined` is optional. -/
structure RansomVictim where
  post_title : Option String
  group_name : Option String
  discovered : Option String
  country : Option String
  post_url : Option String
deriving DecidableEq, Repr

/-- One element of the URLhaus `urls` array. -/
structure UrlhausEntry where
  url : Option String
  threat : Option String
  tags : Option (List String)
  dateadded : Option String
  url_status : Option String
deriving DecidableEq, Repr

/-- The URLhaus response object; `data.urls || []` defaults a missing
array. -/
structure UrlhausResponse where
  urls : Option (List UrlhausEntry)
deriving DecidableEq, Repr

/-- One element of the ThreatFox `data` array. -/
structure ThreatFoxEntry where
  ioc_type : Option String
  ioc : Option String
  threat_type : Option String
  malware : Option String
  confidence_level : Option Int
  first_seen : Option String
deriving DecidableEq, Repr

/-- The ThreatFox response object; `data.data || []` defaults a
missing array. -/
structure ThreatFoxResponse where
  data : Option (List ThreatFoxEntry)
deriving DecidableEq, Repr

/-- The normalized threat item.  The three fetchers build objects
with different field sets; the union is modelled with optional
fields, `none` standing for a field the fetcher does not set. -/
structure ThreatItem where
  type : String
  severity : String
  name : Option String := none
  group : Option String := none
  date : Option String := none
  country : Option String := none
  url : Option String := none
  threat : Option String := none
  tags : Option (List String) := none
  status : Option String := none
  ioc_type : Option String := none
  value : Option String := none
  malware : Option String := none
  confidence : Option Int := none
deriving DecidableEq, Repr

/-- Per-feed result.  A fetcher's `catch` branch returns
`{ source, error, items: [] }`, leaving `timestamp` and `count`
undefined (`none` here). -/
structure SourceResult where
  source : String
  timestamp : Option String
  count : Option Nat
  items : List ThreatItem
  error : Option String
deriving DecidableEq, Repr

/-- One entry of `summary.sources`. -/
structure SourceStatus where
  name : String
  status : String
  count : Nat
deriving DecidableEq, Repr

/-- The aggregate summary block. -/
structure AggregateSummary where
  timestamp : String
  sources : List SourceStatus
  totalThreats : Nat
  highSeverity : Nat
deriving DecidableEq, Repr

/-! ## Threat aggregator: fetchers -/

/-- The map in `fetchRansomwareVictims`: `post_title || 'Unknown'`,
fixed severity `high`. -/
def normalizeVictim (v : RansomVictim) : ThreatItem :=
  { type := "victim", severity := "high",
    name := some (jsOrString v.post_title "Unknown"),
    group := v.group_name, date := v.discovered,
    country := v.country, url := v.post_url }

/-- The map in `fetchMaliciousURLs`: fixed severity `medium`. -/
def normalizeUrl (u : UrlhausEntry) : ThreatItem :=
  { type := "url", severity := "medium",
    url := u.url, threat := u.threat, tags := u.tags,
    date := u.dateadded, status := u.url_status }

/-- The map in `fetchIOCs`: severity `high` when
`confidence_level >= 75`, else `medium` (a missing level compares
false, hence `medium`). -/
def normalizeIOC (i : ThreatFoxEntry) : ThreatItem :=
  { type := "ioc",
    severity := match i.confidence_level with
      | some cl => if cl ≥ 75 then "high" else "medium"
      | none => "medium",
    ioc_type := i.ioc_type, value := i.ioc, threat := i.threat_type,
    malware := i.malware, confidence := i.confidence_level,
    date := i.first_seen }

/-- `fetchRansomwareVictims`: the HTTP call and JSON handling are in
`try`/`catch`; the argument is either the parsed victims array or the
caught error message (a null body also throws at `victims.length` and
lands in `catch`).  On success `count` is the full array length and
`items` is `victims.slice(0, 10)` normalized. -/
def fetchRansomwareVictims (now : String) (resp : Except String (List RansomVictim)) :
    SourceResult :=
  match resp with
  | Except.error msg =>
      { source := "Ransomware.live", timestamp := none, count := none,
        items := [], error := some msg }
  | Except.ok victims =>
      { source := "Ransomware.live", timestamp := some now,
        count := some victims.length,
        items := (victims.take 10).map normalizeVictim, error := none }

/-- `fetchMaliciousURLs`: as above with `urls = data.urls || []`. -/
def fetchMaliciousURLs (now : String) (resp : Except String UrlhausResponse) :
    SourceResult :=
  match resp with
  | Except.error msg =>
      { source := "URLhaus", timestamp := none, count := none,
        items := [], error := some msg }
  | Except.ok r =>
      let urls := r.urls.getD []
      { source := "URLhaus", timestamp := some now,
        count := some urls.length,
        items := (urls.take 10).map normalizeUrl, error := none }

/-- `fetchIOCs`: as above with `iocs = data.data || []`. -/
def fetchIOCs (now : String) (resp : Except String ThreatFoxResponse) :
    SourceResult :=
  match resp with
  | Except.error msg =>
      { source := "ThreatFox", timestamp := none, count := none,
        items := [], error := some msg }
  | Except.ok r =>
      let iocs := r.data.getD []
      { source := "ThreatFox", timestamp := some now,
        count := some iocs.length,
        items := (iocs.take 10).map normalizeIOC, error := none }

/-! ## Threat aggregator: aggregation -/

/-- `aggregateThreats`: `Promise.allSettled` over the three fetchers.
Each fetcher traps every failure in its own `try`/`catch` and
resolves, so the `rejected` branch of the settled map is unreachable
and `threats` is exactly the three fetcher results.  The summary maps
each result to `{ name, status: error ? 'error' : 'ok',
count: count || 0 }` and folds `items.length` and the high-severity
item count over all results. -/
def aggregateThreats (now : String)
    (rV : Except String (List RansomVictim))
    (rU : Except String UrlhausResponse)
    (rI : Except String ThreatFoxResponse) :
    AggregateSummary × List SourceResult :=
  let threats := [fetchRansomwareVictims now rV, fetchMaliciousURLs now rU, fetchIOCs now rI]
  let summary : AggregateSummary :=
    { timestamp := now,
      sources := threats.map (fun t =>
        { name := t.source,
          status := if t.error.isSome then "error" else "ok",
          count := t.count.getD 0 }),
      totalThreats := threats.foldl (fun acc t => acc + t.items.length) 0,
      highSeverity := threats.foldl (fun acc t =>
        acc + (t.items.filter (fun i => i.severity == "high")).length) 0 }
  (summary, threats)

/-! ## Concrete fixtures used by witnesses and counterexamples -/

/-- An all-zero stats block. -/
def stats0 : Stats := ⟨0, 0, 0⟩

/-- A connection row whose `peer` column is absent. -/
def connNoPeer : Connection :=
  ⟨"tcp", "ESTAB", "0", "0", "127.0.0.1:80", none, "unknown"⟩

/-- A connection whose peer address ends in a digit-prefixed,
non-numeric segment. -/
def connBadPeer : Connection :=
  ⟨"tcp", "ESTAB", "0", "0", "127.0.0.1:80", some "10.0.0.5:4444abc", "unknown"⟩

/-- A snapshot with `n` peerless connections and no ports. -/
def snapConns (n : Nat) : Snapshot :=
  ⟨"t", List.replicate n connNoPeer, [], stats0⟩

/-- A snapshot with the given listening ports and no connections. -/
def snapPorts (ps : List ListeningPort) : Snapshot :=
  ⟨"t", [], ps, stats0⟩

/-- A snapshot holding only the digit-prefixed bad-peer connection. -/
def snapBadPeer : Snapshot := ⟨"t", [connBadPeer], [], stats0⟩

/-! ## Claim theorems -/

/-- C1: for every pair of snapshots, `detectAnomalies` emits a
`connection_spike` event iff `c > 2p` and `c > 50` with both
inequalities strict, independent of the other rules, and every such
event has severity `high`. -/
theorem connection_spike_fires_iff (cur prev : Snapshot) (now : String) :
    ((∃ e ∈ detectAnomalies cur (some prev) now, e.type = "connection_spike") ↔
      (cur.connections.length > 2 * prev.connections.length ∧
       cur.connections.length > 50)) ∧
    (∀ e ∈ detectAnomalies cur (some prev) now,
       e.type = "connection_spike" → e.severity = "high") := by
  simp only [detectAnomalies]
  split_ifs with h1 h2 h3 <;>
    simp_all [List.mem_append] <;> omega

/-- C1 witness: with 30 previous and 65 current connections the spike
rule fires (65 > 60 and 65 > 50) at severity high. -/
theorem connection_spike_fires_iff_witness :
    (∃ e ∈ detectAnomalies (snapConns 65) (some (snapConns 30)) ("T"),
       e.type = "connection_spike") ∧
    (∀ e ∈ detectAnomalies (snapConns 65) (some (snapConns 30)) ("T"),
       e.type = "connection_spike" → e.severity = "high") :=
  ⟨(connection_spike_fires_iff (snapConns 65) (snapConns 30) ("T")).1.mpr (by decide),
   (connection_spike_fires_iff (snapConns 65) (snapConns 30) ("T")).2⟩

/-- C2: with a baseline present, exactly one `new_listening_port`
event (severity medium) is emitted iff some current port number is
absent from the previous port numbers; the event carries all entries
whose port number is new, and never an entry whose port number
appears in the previous snapshot under any protocol. -/
theorem new_listening_port_spec (cur prev : Snapshot) (now : String) :
    ((∃ e ∈ detectAnomalies cur (some prev) now, e.type = "new_listening_port") ↔
       ∃ p ∈ cur.ports, p.port ∉ prev.ports.map (fun q => q.port)) ∧
    (((detectAnomalies cur (some prev) now).filter
        (fun e => e.type == "new_listening_port")).length
       = if ∃ p ∈ cur.ports, p.port ∉ prev.ports.map (fun q => q.port) then 1 else 0) ∧
    (∀ e ∈ detectAnomalies cur (some prev) now, e.type = "new_listening_port" →
       e.severity = "medium" ∧
       e.details = AnomalyDetails.newPorts (cur.ports.filter
         (fun p => !((prev.ports.map (fun q => q.port)).contains p.port)))) ∧
    (∀ e ∈ detectAnomalies cur (some prev) now,
       ∀ l, e.details = AnomalyDetails.newPorts l →
       ∀ p ∈ l, p.port ∉ prev.ports.map (fun q => q.port)) := by
  simp only [detectAnomalies]
  split_ifs with h1 h2 h3 <;>
    simp_all [List.mem_append, List.mem_filter, List.elem_iff, List.length_pos,
      List.filter_eq_nil_iff, List.eq_nil_iff_forall_not_mem] <;>
    (first
      | tauto
      | (rename_i hp
         obtain ⟨p, hpmem, hpnot⟩ := hp
         obtain ⟨q, hqmem, hq⟩ := h1 p hpmem
         exact hpnot q hqmem hq))

/-- C2 witness: a port number unseen in the baseline makes the rule
fire. -/
theorem new_listening_port_spec_witness :
    ∃ e ∈ detectAnomalies (snapPorts [⟨"tcp", "8080", "0.0.0.0:8080"⟩])
        (some (snapPorts [⟨"udp", "22", "0.0.0.0:22"⟩])) ("T"),
      e.type = "new_listening_port" :=
  (new_listening_port_spec (snapPorts [⟨"tcp", "8080", "0.0.0.0:8080"⟩])
    (snapPorts [⟨"udp", "22", "0.0.0.0:22"⟩]) ("T")).1.mpr (by decide)

/-- C3: a missing or unparseable state file loads as `none` (the
parsed case loads the snapshot), and detection against an absent
baseline returns no anomalies, so the first cycle after a restart
raises none. -/
theorem missing_baseline_no_anomalies :
    loadState ReadResult.missing = none ∧
    (∀ raw, loadState (ReadResult.unparseable raw) = none) ∧
    (∀ (s : Snapshot), loadState (ReadResult.parsed s) = some s) ∧
    (∀ (s : Snapshot) (now : String), detectAnomalies s none now = []) ∧
    (∀ (s : Snapshot) (now : String),
       detectAnomalies s (loadState ReadResult.missing) now = []) ∧
    (∀ (s : Snapshot) (now raw : String),
       detectAnomalies s (loadState (ReadResult.unparseable raw)) now = []) :=
  ⟨rfl, fun _ => rfl, fun _ => rfl, fun _ _ => rfl, fun _ _ => rfl, fun _ _ _ => rfl⟩

/-- C4: in an aggregation cycle over the 3 configured feeds in which
exactly 2 fetchers fail, the summary still lists 3 sources, exactly 2
of them with status `error`, every error-status source reports count
0, source status/name line up with the per-feed results, and
`totalThreats` and `highSeverity` are the item-length sum and the
high-severity item count over all results (the failed feeds
contributing nothing). -/
theorem aggregate_two_failures (now : String)
    (rV : Except String (List RansomVictim))
    (rU : Except String UrlhausResponse)
    (rI : Except String ThreatFoxResponse)
    (h : ((aggregateThreats now rV rU rI).2.filter
           (fun t => t.error.isSome)).length = 2) :
    ((aggregateThreats now rV rU rI).1.sources.length = 3) ∧
    (((aggregateThreats now rV rU rI).1.sources.filter
        (fun s => s.status == "error")).length = 2) ∧
    (∀ s ∈ (aggregateThreats now rV rU rI).1.sources,
       s.status = "error" → s.count = 0) ∧
    (∀ p ∈ (aggregateThreats now rV rU rI).1.sources.zip (aggregateThreats now rV rU rI).2,
       (p.1.status = "error" ↔ p.2.error.isSome) ∧ p.1.name = p.2.source) ∧
    ((aggregateThreats now rV rU rI).1.totalThreats
       = ((aggregateThreats now rV rU rI).2.map (fun t => t.items.length)).sum) ∧
    ((aggregateThreats now rV rU rI).1.totalThreats
       = (((aggregateThreats now rV rU rI).2.filter (fun t => t.error.isNone)).map
           (fun t => t.items.length)).sum) ∧
    ((aggregateThreats now rV rU rI).1.highSeverity
       = ((aggregateThreats now rV rU rI).2.map
           (fun t => (t.items.filter (fun i => i.severity == "high")).length)).sum) := by
  rcases rV with mV | v <;> rcases rU with mU | u <;> rcases rI with mI | i <;>
    simp_all [aggregateThreats, fetchRansomwareVictims, fetchMaliciousURLs, fetchIOCs]

/-- C4 witness: one succeeding feed and two failing ones give 3
source entries, 2 of them in error. -/
theorem aggregate_two_failures_witness :
    ((aggregateThreats ("t") (Except.ok ([] : List RansomVictim))
        (Except.error ("u down")) (Except.error ("i down"))).1.sources.length = 3) ∧
    (((aggregateThreats ("t") (Except.ok ([] : List RansomVictim))
        (Except.error ("u down")) (Except.error ("i down"))).1.sources.filter
        (fun s => s.status == "error")).length = 2) :=
  ⟨(aggregate_two_failures ("t") (Except.ok ([] : List RansomVictim))
      (Except.error ("u down")) (Except.error ("i down")) (by decide)).1,
   (aggregate_two_failures ("t") (Except.ok ([] : List RansomVictim))
      (Except.error ("u down")) (Except.error ("i down")) (by decide)).2.1⟩

/-- C5: evaluating `getListeningPorts` on an `ss -tuln` output with
no LISTEN line (no listening TCP socket): `grep` selects nothing,
exits 1, and `exec` reports the failure, so the call rejects instead
of resolving to an empty list. -/
theorem getListeningPorts_no_listeners_rejects :
    getListeningPorts ("Netid State Recv-Q Send-Q Local Address:Port Peer Address:Port")
      = Except.error ("Command failed: ss -tuln | grep LISTEN") := rfl

/-- C6 counterexample: on an unrecoverable write failure (filesystem
full) `saveState` raises nothing to the caller — the `catch` block
only logs — refuting the claim that the error is raised. -/
theorem saveState_absorbs_write_failure :
    (saveState (WriteOutcome.failed ("ENOSPC: no space left on device"))).raised = none ∧
    (saveState (WriteOutcome.failed ("ENOSPC: no space left on device"))).logged
      = ["Error saving state: ENOSPC: no space left on device"] :=
  ⟨rfl, rfl⟩

/-- C6 amended: `saveState` never raises; a write failure is caught
and logged to the operator-visible console, and success completes
without error and without an error log. -/
theorem saveState_never_raises :
    (∀ w, (saveState w).raised = none) ∧
    (saveState WriteOutcome.ok).logged = [] ∧
    (∀ msg, (saveState (WriteOutcome.failed msg)).logged
       = ["Error saving state: " ++ msg]) :=
  ⟨fun w => by cases w <;> rfl, rfl, fun _ => rfl⟩

/-- C7 counterexample: with a configured but malformed webhook value
(`new URL("not a url")` throws, the string having no scheme), the
constructor call sits outside any `try`/`catch` in `sendAlert`, so
the `TypeError` escapes to the caller, refuting the claim for
ill-formed configurations. -/
theorem sendAlert_malformed_webhook_raises :
    (sendAlert (some ("not a url"))
        (URLOutcome.throws ("TypeError ERR_INVALID_URL: Invalid URL: not a url"))
        { type := "suspicious_port", severity := "critical",
          details := AnomalyDetails.suspicious [], timestamp := "T" }
        (DeliveryOutcome.status 204)).raised
      = some ("TypeError ERR_INVALID_URL: Invalid URL: not a url") := rfl

/-- C7 amended: `sendAlert` never raises when the webhook is absent
(the event is still written to the local log) or when the URL
constructor accepts the configured webhook: delivery failures
(request error or non-204 status) are logged, never propagated.
When the constructor throws, the exception is what reaches the
caller. -/
theorem sendAlert_never_raises_when_wellformed :
    (∀ (o : URLOutcome) (alert : AnomalyEvent) (d : DeliveryOutcome),
       (sendAlert none o alert d).raised = none ∧
       (sendAlert none o alert d).logged ≠ []) ∧
    (∀ (u hostname pathSearch : String) (alert : AnomalyEvent) (d : DeliveryOutcome),
       (sendAlert (some u) (URLOutcome.parsed hostname pathSearch) alert d).raised
         = none) ∧
    (∀ (u hostname pathSearch : String) (alert : AnomalyEvent) (msg : String),
       (sendAlert (some u) (URLOutcome.parsed hostname pathSearch) alert
          (DeliveryOutcome.netError msg)).logged = ["Error sending alert: " ++ msg]) ∧
    (∀ (u hostname pathSearch : String) (alert : AnomalyEvent) (code : Nat),
       code ≠ 204 →
       (sendAlert (some u) (URLOutcome.parsed hostname pathSearch) alert
          (DeliveryOutcome.status code)).logged
         = ["Failed to send alert: " ++ toString code]) ∧
    (∀ (u msg : String) (alert : AnomalyEvent) (d : DeliveryOutcome),
       (sendAlert (some u) (URLOutcome.throws msg) alert d).raised = some msg) := by
  refine ⟨fun o alert d => ⟨rfl, by simp [sendAlert]⟩, ?_, ?_, ?_, ?_⟩
  · intro u hostname pathSearch alert d
    cases d
    · simp only [sendAlert]
      split <;> rfl
    · rfl
  · intro u hostname pathSearch alert msg
    rfl
  · intro u hostname pathSearch alert code hcode
    simp [sendAlert, hcode]
  · intro u msg alert d
    rfl

/-- C7 witness: a parsing webhook with a failing delivery and with a
non-204 status, and an absent webhook, all return without raising. -/
theorem sendAlert_never_raises_witness :
    ((sendAlert (some ("https://discord.com/api/webhooks/1"))
        (URLOutcome.parsed ("discord.com") ("/api/webhooks/1"))
        { type := "connection_spike", severity := "high",
          details := AnomalyDetails.spike 30 65 ("117%"), timestamp := "T" }
        (DeliveryOutcome.netError ("ECONNREFUSED"))).raised = none) ∧
    ((sendAlert none
        (URLOutcome.parsed ("discord.com") ("/api/webhooks/1"))
        { type := "connection_spike", severity := "high",
          details := AnomalyDetails.spike 30 65 ("117%"), timestamp := "T" }
        (DeliveryOutcome.netError ("ECONNREFUSED"))).logged ≠ []) ∧
    ((500 : Nat) ≠ 204 ∧
     (sendAlert (some ("https://discord.com/api/webhooks/1"))
        (URLOutcome.parsed ("discord.com") ("/api/webhooks/1"))
        { type := "connection_spike", severity := "high",
          details := AnomalyDetails.spike 30 65 ("117%"), timestamp := "T" }
        (DeliveryOutcome.status 500)).logged
       = ["Failed to send alert: " ++ toString (500 : Nat)]) :=
  ⟨sendAlert_never_raises_when_wellformed.2.1 ("https://discord.com/api/webhooks/1")
     ("discord.com") ("/api/webhooks/1")
     { type := "connection_spike", severity := "high",
       details := AnomalyDetails.spike 30 65 ("117%"), timestamp := "T" }
     (DeliveryOutcome.netError ("ECONNREFUSED")),
   (sendAlert_never_raises_when_wellformed.1
     (URLOutcome.parsed ("discord.com") ("/api/webhooks/1"))
     { type := "connection_spike", severity := "high",
       details := AnomalyDetails.spike 30 65 ("117%"), timestamp := "T" }
     (DeliveryOutcome.netError ("ECONNREFUSED"))).2,
   by decide,
   sendAlert_never_raises_when_wellformed.2.2.2.1 ("https://discord.com/api/webhooks/1")
     ("discord.com") ("/api/webhooks/1")
     { type := "connection_spike", severity := "high",
       details := AnomalyDetails.spike 30 65 ("117%"), timestamp := "T" }
     500 (by decide)⟩

/-- With a non-zero previous count, the spike increase string is the
exact rounded percentage. -/
theorem spikeIncrease_pos (c p : Nat) (hp : p ≠ 0) :
    spikeIncrease c p
      = toString (Int.floor (((c : ℚ) / (p : ℚ) - 1) * 100 + 1/2)) ++ ("%") := by
  simp [spikeIncrease, qxDivNat, qxSub, qxMul, jsMathRound, jsNumToString, hp]

/-- C8 counterexample: with 0 previous and 51 current connections the
spike rule fires (51 > 0 and 51 > 50) and the unguarded division by
zero makes the reported increase the string `Infinity%`, not a
rounded finite percentage. -/
theorem connection_spike_division_unguarded :
    detectAnomalies (snapConns 51) (some (snapConns 0)) ("T")
      = [{ type := "connection_spike", severity := "high",
           details := AnomalyDetails.spike 0 51 ("Infinity%"), timestamp := "T" }] := by
  decide

/-- C8 amended: whenever the previous connection count `p` is
positive, every `connection_spike` event carries
`round((c/p - 1) * 100)` (rounding half toward positive infinity)
rendered as a percent string; for `p = 0` the rule still fires for
`c > 50` and reports `Infinity%`. -/
theorem spike_increase_formula (cur prev : Snapshot) (now : String)
    (hp : 0 < prev.connections.length) :
    ∀ e ∈ detectAnomalies cur (some prev) now, e.type = "connection_spike" →
      e.details = AnomalyDetails.spike prev.connections.length cur.connections.length
        (toString (Int.floor
            (((cur.connections.length : ℚ) / (prev.connections.length : ℚ) - 1) * 100 + 1/2))
          ++ ("%")) := by
  have hne : prev.connections.length ≠ 0 := Nat.pos_iff_ne_zero.mp hp
  simp only [detectAnomalies]
  split_ifs with h1 h2 h3 <;>
    simp_all [List.mem_append, spikeIncrease_pos _ _ hne]

/-- C8 witness: with 30 previous and 65 current connections the spike
detail is the rounded percentage string. -/
theorem spike_increase_formula_witness :
    0 < (snapConns 30).connections.length ∧
    (∀ e ∈ detectAnomalies (snapConns 65) (some (snapConns 30)) ("T"),
       e.type = "connection_spike" →
       e.details = AnomalyDetails.spike (snapConns 30).connections.length
         (snapConns 65).connections.length
         (toString (Int.floor
             ((((snapConns 65).connections.length : ℚ)
                / ((snapConns 30).connections.length : ℚ) - 1) * 100 + 1/2))
           ++ ("%"))) :=
  ⟨by decide, spike_increase_formula (snapConns 65) (snapConns 30) ("T") (by decide)⟩

/-- C9: every successful fetch records the full upstream item count
in `count` while truncating `items` to at most 10 entries, so
`count ≥ items.length` always holds for each of the three fetchers;
and concretely a source entry's `count` (11) can exceed that source's
contribution to `totalThreats` (10). -/
theorem fetch_count_vs_truncated_items :
    (∀ (now : String) (victims : List RansomVictim),
       (fetchRansomwareVictims now (Except.ok victims)).count = some victims.length ∧
       (fetchRansomwareVictims now (Except.ok victims)).items.length
         = min 10 victims.length ∧
       (fetchRansomwareVictims now (Except.ok victims)).items.length ≤ 10 ∧
       (fetchRansomwareVictims now (Except.ok victims)).items.length ≤ victims.length) ∧
    (∀ (now : String) (r : UrlhausResponse),
       (fetchMaliciousURLs now (Except.ok r)).count = some (r.urls.getD []).length ∧
       (fetchMaliciousURLs now (Except.ok r)).items.length ≤ 10 ∧
       (fetchMaliciousURLs now (Except.ok r)).items.length ≤ (r.urls.getD []).length) ∧
    (∀ (now : String) (r : ThreatFoxResponse),
       (fetchIOCs now (Except.ok r)).count = some (r.data.getD []).length ∧
       (fetchIOCs now (Except.ok r)).items.length ≤ 10 ∧
       (fetchIOCs now (Except.ok r)).items.length ≤ (r.data.getD []).length) ∧
    ((aggregateThreats ("t")
        (Except.ok (List.replicate 11 (⟨none, none, none, none, none⟩ : RansomVictim)))
        (Except.error ("u down")) (Except.error ("i down"))).1.sources.head?
       = some { name := "Ransomware.live", status := "ok", count := 11 } ∧
     (aggregateThreats ("t")
        (Except.ok (List.replicate 11 (⟨none, none, none, none, none⟩ : RansomVictim)))
        (Except.error ("u down")) (Except.error ("i down"))).1.totalThreats = 10) := by
  refine ⟨?_, ?_, ?_, by decide⟩ <;>
    intro now x <;>
    simp [fetchRansomwareVictims, fetchMaliciousURLs, fetchIOCs, List.length_take]

/-- C10 counterexample: a peer whose final colon-delimited segment is
the non-numeral `4444abc` parses to its numeric prefix 4444, so the
connection IS included in a `suspicious_port` event, refuting the
claim for digit-prefixed non-numeric segments. -/
theorem suspicious_port_numeric_prefix_included :
    detectAnomalies snapBadPeer (some (snapConns 0)) ("T")
      = [{ type := "suspicious_port", severity := "critical",
           details := AnomalyDetails.suspicious [connBadPeer], timestamp := "T" }] := by
  decide

/-- C10 amended: a connection whose peer is missing, empty, or whose
final colon-delimited segment has no leading decimal digits
(`parseInt` yields `NaN`) is never included in a `suspicious_port`
event; a digit-prefixed segment, however, parses to its prefix and
can match the bad-port list.  `detectAnomalies` is a total function,
so no such connection makes detection raise. -/
theorem malformed_peer_never_suspicious (cur prev : Snapshot) (now : String)
    (conn : Connection)
    (h : conn.peer = none ∨ conn.peer = some ("") ∨
         ∃ s, conn.peer = some s ∧ jsParseInt (lastSegment s (':')) = none) :
    ∀ e ∈ detectAnomalies cur (some prev) now,
      ∀ l, e.details = AnomalyDetails.suspicious l → conn ∉ l := by
  have hfalse : isSuspiciousConn conn = false := by
    rcases h with h | h | ⟨s, hs, hps⟩
    · simp [isSuspiciousConn, jsPeerPort, h, suspiciousPortsList]
    · simp [isSuspiciousConn, jsPeerPort, h, suspiciousPortsList]
    · by_cases hse : s = ("")
      · simp [isSuspiciousConn, jsPeerPort, hs, hse, suspiciousPortsList]
      · simp [isSuspiciousConn, jsPeerPort, hs, hse, hps]
  clear h
  intro e he l hdet hconn
  simp only [detectAnomalies] at he
  split_ifs at he <;>
    simp only [List.mem_append, List.mem_singleton, List.not_mem_nil, or_false,
      false_or] at he <;>
    first
    | exact he.elim
    | (rcases he with (rfl | rfl) | rfl <;> simp_all [List.mem_filter])
  all_goals (subst hdet; exact absurd (List.mem_filter.mp hconn).2 (by simp [hfalse]))

/-- C10 witness: a peerless connection is never listed as
suspicious. -/
theorem malformed_peer_never_suspicious_witness :
    (connNoPeer.peer = none ∨ connNoPeer.peer = some ("") ∨
       ∃ s, connNoPeer.peer = some s ∧ jsParseInt (lastSegment s (':')) = none) ∧
    (∀ e ∈ detectAnomalies (snapConns 1) (some (snapConns 1)) ("T"),
       ∀ l, e.details = AnomalyDetails.suspicious l → connNoPeer ∉ l) :=
  ⟨Or.inl rfl,
   malformed_peer_never_suspicious (snapConns 1) (snapConns 1) ("T") connNoPeer (Or.inl rfl)⟩

end HomeSoc
